import Mathlib

/-! Interception shim for the file-opening primitives (`openwrapper.c`).

A shallow embedding of the eight `__wrap_*` functions of
`src/harness_agent/evaluation/openwrapper.c`.  Each wrapper is a straight-line
C function with four kinds of observable effect: the call of the linked
`__real_*` primitive, a `printf` to `stdout`, an `fflush(stdout)` and
`__builtin_trap()`.  The embedding is a trace monad: running a wrapper yields
the list of effects in program order together with the way the call ended
(a value handed back to the caller, or the trap).
-/

namespace OpenWrapper

/-! ## C values -/

/-- A `const char *` argument: `none` is the null pointer, `some s` points to
the NUL-terminated text `s`. -/
abbrev CStr := Option String

/-- A `FILE` object, identified by an opaque address. -/
structure FILE where
  addr : Nat
  deriving DecidableEq, Repr

/-- A `FILE *`: `none` is the null pointer. -/
abbrev FilePtr := Option FILE

/-- One invocation of a file-opening primitive together with its actual
arguments, in the parameter order of the C prototypes. -/
inductive Call where
  | open_ (pathname : CStr) (flags : Int) (mode : Nat)
  | open64 (pathname : CStr) (flags : Int) (mode : Nat)
  | openat (dirfd : Int) (pathname : CStr) (flags : Int) (mode : Nat)
  | openat64 (dirfd : Int) (pathname : CStr) (flags : Int) (mode : Nat)
  | fopen (path : CStr) (mode : CStr)
  | fopen64 (path : CStr) (mode : CStr)
  | fdopen (fd : Int) (mode : CStr)
  | freopen (path : CStr) (mode : CStr) (stream : FilePtr)
  deriving DecidableEq, Repr

/-- The observable effects of a wrapper. -/
inductive Event where
  | real (c : Call)
  | printf (text : String)
  | fflush
  | trap
  deriving DecidableEq, Repr

/-- How a call ends: control goes back to the caller with a value, or the
process is killed by `__builtin_trap()`. -/
inductive Outcome (α : Type) where
  | returned (v : α)
  | trapped
  deriving DecidableEq, Repr

/-- The result of running a piece of C code: its effects in program order and
its outcome. -/
structure Exec (α : Type) where
  trace : List Event
  outcome : Outcome α

/-- Sequencing: the continuation runs only if the first part returned. -/
def Exec.bind {α β : Type} (m : Exec α) (f : α → Exec β) : Exec β :=
  match m.outcome with
  | .returned v => ⟨m.trace ++ (f v).trace, (f v).outcome⟩
  | .trapped => ⟨m.trace, .trapped⟩

instance : Monad Exec where
  pure v := ⟨[], .returned v⟩
  bind := Exec.bind

/-! ## The C library -/

/-- The part of the C library the wrappers rely on and the source does not
fix.  ISO C leaves a `%s` conversion with a null argument undefined; glibc,
which provides the `open64`/`fopen64` entry points wrapped here, writes
`(null)`.  The text is a parameter, so that nothing proved below depends on
its value. -/
structure Libc where
  nullText : String

/-- A variadic argument of `printf`. -/
inductive Arg where
  | str (s : CStr)
  | int (n : Int)

/-- The `%s` and `%d` conversions of `printf`, the only ones in the format
strings of the wrappers; every other character of the format is copied. -/
def vformat (libc : Libc) : List Char → List Arg → List Char
  | '%' :: 's' :: rest, .str s :: args => (s.getD libc.nullText).data ++ vformat libc rest args
  | '%' :: 'd' :: rest, .int n :: args => (toString n).data ++ vformat libc rest args
  | c :: rest, args => c :: vformat libc rest args
  | [], _ => []

/-- The call `printf(format, args...)`: the formatted text goes to the buffer of `stdout`. -/
def printf (libc : Libc) (format : String) (args : List Arg) : Exec Unit :=
  ⟨[.printf (String.mk (vformat libc format.data args))], .returned ()⟩

/-- The call `fflush(stdout)`. -/
def fflush_stdout : Exec Unit :=
  ⟨[.fflush], .returned ()⟩

/-- The call `__builtin_trap()`: it does not return. -/
def __builtin_trap : Exec Unit :=
  ⟨[.trap], .trapped⟩

/-! ## The linked primitives -/

/-- The eight `__real_*` symbols, declared but not defined in the source: the
linker binds them to the unwrapped primitives.  Each is an arbitrary function
of its arguments. -/
structure Real where
  real_open : CStr → Int → Nat → Int
  real_open64 : CStr → Int → Nat → Int
  real_openat : Int → CStr → Int → Nat → Int
  real_openat64 : Int → CStr → Int → Nat → Int
  real_fopen : CStr → CStr → FilePtr
  real_fopen64 : CStr → CStr → FilePtr
  real_fdopen : Int → CStr → FilePtr
  real_freopen : CStr → CStr → FilePtr → FilePtr

/-- The call of `__real_open`, recorded with its actual arguments. -/
def __real_open (R : Real) (pathname : CStr) (flags : Int) (mode : Nat) : Exec Int :=
  ⟨[.real (.open_ pathname flags mode)], .returned (R.real_open pathname flags mode)⟩

/-- The call of `__real_open64`. -/
def __real_open64 (R : Real) (pathname : CStr) (flags : Int) (mode : Nat) : Exec Int :=
  ⟨[.real (.open64 pathname flags mode)], .returned (R.real_open64 pathname flags mode)⟩

/-- The call of `__real_openat`. -/
def __real_openat (R : Real) (dirfd : Int) (pathname : CStr) (flags : Int) (mode : Nat) : Exec Int :=
  ⟨[.real (.openat dirfd pathname flags mode)], .returned (R.real_openat dirfd pathname flags mode)⟩

/-- The call of `__real_openat64`. -/
def __real_openat64 (R : Real) (dirfd : Int) (pathname : CStr) (flags : Int) (mode : Nat) : Exec Int :=
  ⟨[.real (.openat64 dirfd pathname flags mode)], .returned (R.real_openat64 dirfd pathname flags mode)⟩

/-- The call of `__real_fopen`. -/
def __real_fopen (R : Real) (path : CStr) (mode : CStr) : Exec FilePtr :=
  ⟨[.real (.fopen path mode)], .returned (R.real_fopen path mode)⟩

/-- The call of `__real_fopen64`. -/
def __real_fopen64 (R : Real) (path : CStr) (mode : CStr) : Exec FilePtr :=
  ⟨[.real (.fopen64 path mode)], .returned (R.real_fopen64 path mode)⟩

/-- The call of `__real_fdopen`. -/
def __real_fdopen (R : Real) (fd : Int) (mode : CStr) : Exec FilePtr :=
  ⟨[.real (.fdopen fd mode)], .returned (R.real_fdopen fd mode)⟩

/-- The call of `__real_freopen`. -/
def __real_freopen (R : Real) (path : CStr) (mode : CStr) (stream : FilePtr) : Exec FilePtr :=
  ⟨[.real (.freopen path mode stream)], .returned (R.real_freopen path mode stream)⟩

/-! ## The wrappers

Statement for statement as in `openwrapper.c`; `!fp` on a pointer is the test
for the null pointer. -/

/-- The function `__wrap_open`, `openwrapper.c` lines 8-16. -/
def __wrap_open (libc : Libc) (R : Real) (pathname : CStr) (flags : Int) (mode : Nat) : Exec Int := do
  let fd ← __real_open R pathname flags mode
  printf libc "[WRAP] open: %s\n" [.str pathname]
  fflush_stdout
  if fd == -1 then
    __builtin_trap
  return fd

/-- The function `__wrap_open64`, `openwrapper.c` lines 20-28. -/
def __wrap_open64 (libc : Libc) (R : Real) (pathname : CStr) (flags : Int) (mode : Nat) : Exec Int := do
  let fd ← __real_open64 R pathname flags mode
  printf libc "[WRAP] open64: %s\n" [.str pathname]
  fflush_stdout
  if fd == -1 then
    __builtin_trap
  return fd

/-- The function `__wrap_openat`, `openwrapper.c` lines 32-40. -/
def __wrap_openat (libc : Libc) (R : Real) (dirfd : Int) (pathname : CStr) (flags : Int) (mode : Nat) :
    Exec Int := do
  let fd ← __real_openat R dirfd pathname flags mode
  printf libc "[WRAP] openat: %s\n" [.str pathname]
  fflush_stdout
  if fd == -1 then
    __builtin_trap
  return fd

/-- The function `__wrap_openat64`, `openwrapper.c` lines 44-52. -/
def __wrap_openat64 (libc : Libc) (R : Real) (dirfd : Int) (pathname : CStr) (flags : Int) (mode : Nat) :
    Exec Int := do
  let fd ← __real_openat64 R dirfd pathname flags mode
  printf libc "[WRAP] openat64: %s\n" [.str pathname]
  fflush_stdout
  if fd == -1 then
    __builtin_trap
  return fd

/-- The function `__wrap_fopen`, `openwrapper.c` lines 56-64. -/
def __wrap_fopen (libc : Libc) (R : Real) (path : CStr) (mode : CStr) : Exec FilePtr := do
  let fp ← __real_fopen R path mode
  printf libc "[WRAP] fopen: %s\n" [.str path]
  fflush_stdout
  if fp.isNone then
    __builtin_trap
  return fp

/-- The function `__wrap_fopen64`, `openwrapper.c` lines 68-76. -/
def __wrap_fopen64 (libc : Libc) (R : Real) (path : CStr) (mode : CStr) : Exec FilePtr := do
  let fp ← __real_fopen64 R path mode
  printf libc "[WRAP] fopen64: %s\n" [.str path]
  fflush_stdout
  if fp.isNone then
    __builtin_trap
  return fp

/-- The function `__wrap_fdopen`, `openwrapper.c` lines 80-88. -/
def __wrap_fdopen (libc : Libc) (R : Real) (fd : Int) (mode : CStr) : Exec FilePtr := do
  let fp ← __real_fdopen R fd mode
  printf libc "[WRAP] fdopen: fd=%d\n" [.int fd]
  fflush_stdout
  if fp.isNone then
    __builtin_trap
  return fp

/-- The function `__wrap_freopen`, `openwrapper.c` lines 92-100. The conditional `path ? path : "(null)"` is the `if` in the argument of `printf`. -/
def __wrap_freopen (libc : Libc) (R : Real) (path : CStr) (mode : CStr) (stream : FilePtr) :
    Exec FilePtr := do
  let fp ← __real_freopen R path mode stream
  printf libc "[WRAP] freopen: %s\n" [.str (if path.isSome then path else some "(null)")]
  fflush_stdout
  if fp.isNone then
    __builtin_trap
  return fp

/-! ## Calls and results, uniformly -/

/-- What an entry point hands back: a descriptor or a stream handle. -/
inductive Value where
  | fd (n : Int)
  | fp (p : FilePtr)
  deriving DecidableEq, Repr

/-- The result of the `__real_*` primitive named by the call, on the call's arguments. -/
def Real.result (R : Real) : Call → Value
  | .open_ pathname flags mode => .fd (R.real_open pathname flags mode)
  | .open64 pathname flags mode => .fd (R.real_open64 pathname flags mode)
  | .openat dirfd pathname flags mode => .fd (R.real_openat dirfd pathname flags mode)
  | .openat64 dirfd pathname flags mode => .fd (R.real_openat64 dirfd pathname flags mode)
  | .fopen path mode => .fp (R.real_fopen path mode)
  | .fopen64 path mode => .fp (R.real_fopen64 path mode)
  | .fdopen fd mode => .fp (R.real_fdopen fd mode)
  | .freopen path mode stream => .fp (R.real_freopen path mode stream)

/-- The call site: the program calls an entry point and the linker has put the
wrapper of the same name in its place. -/
def invoke (libc : Libc) (R : Real) : Call → Exec Value
  | .open_ pathname flags mode => Value.fd <$> __wrap_open libc R pathname flags mode
  | .open64 pathname flags mode => Value.fd <$> __wrap_open64 libc R pathname flags mode
  | .openat dirfd pathname flags mode => Value.fd <$> __wrap_openat libc R dirfd pathname flags mode
  | .openat64 dirfd pathname flags mode => Value.fd <$> __wrap_openat64 libc R dirfd pathname flags mode
  | .fopen path mode => Value.fp <$> __wrap_fopen libc R path mode
  | .fopen64 path mode => Value.fp <$> __wrap_fopen64 libc R path mode
  | .fdopen fd mode => Value.fp <$> __wrap_fdopen libc R fd mode
  | .freopen path mode stream => Value.fp <$> __wrap_freopen libc R path mode stream

/-- A successful result: a non-negative descriptor or a non-null stream handle. -/
def Value.isSuccess : Value → Bool
  | .fd n => decide (0 ≤ n)
  | .fp p => p.isSome

/-- The failure indicator of the primitives: the descriptor `-1` or the null handle. -/
def Value.isFailure : Value → Bool
  | .fd n => n == -1
  | .fp p => p.isNone

/-! ## Reading a trace -/

/-- The invocations of the real primitives, in order. -/
def realCalls : List Event → List Call
  | [] => []
  | .real c :: es => c :: realCalls es
  | _ :: es => realCalls es

/-- The texts handed to `stdout`, one per `printf`, in order. -/
def writes : List Event → List String
  | [] => []
  | .printf t :: es => t :: writes es
  | _ :: es => writes es

/-- The stream `stdout`: text still in the buffer, and text already handed to
the operating system. -/
structure Stdout where
  buffer : String
  flushed : String
  deriving DecidableEq, Repr

/-- The effect of one event on `stdout`.  The trap discards the buffer: no
exit handler runs. -/
def Stdout.step (s : Stdout) : Event → Stdout
  | .printf t => { s with buffer := s.buffer ++ t }
  | .fflush => { buffer := "", flushed := s.flushed ++ s.buffer }
  | .trap => { s with buffer := "" }
  | .real _ => s

/-- The text that has reached the operating system once the events of the
trace have happened, `stdout` being empty and fully buffered at the start. -/
def visible (tr : List Event) : String :=
  (tr.foldl Stdout.step ⟨"", ""⟩).flushed

/-- The text a wrapper writes, as a function of the call alone. -/
def logText (libc : Libc) : Call → String
  | .open_ pathname _ _ => "[WRAP] open: " ++ pathname.getD libc.nullText ++ "\n"
  | .open64 pathname _ _ => "[WRAP] open64: " ++ pathname.getD libc.nullText ++ "\n"
  | .openat _ pathname _ _ => "[WRAP] openat: " ++ pathname.getD libc.nullText ++ "\n"
  | .openat64 _ pathname _ _ => "[WRAP] openat64: " ++ pathname.getD libc.nullText ++ "\n"
  | .fopen path _ => "[WRAP] fopen: " ++ path.getD libc.nullText ++ "\n"
  | .fopen64 path _ => "[WRAP] fopen64: " ++ path.getD libc.nullText ++ "\n"
  | .fdopen fd _ => "[WRAP] fdopen: fd=" ++ toString fd ++ "\n"
  | .freopen path _ _ => "[WRAP] freopen: " ++ path.getD "(null)" ++ "\n"

/-! ## Concrete environments -/

/-- The C library of the GNU system: a null `%s` argument is written as `(null)`. -/
def glibc : Libc := ⟨"(null)"⟩

/-- A small file system for evaluating the wrappers: the only file is
`/tmp/exists.txt`, descriptor 3 is the only open descriptor, every successful
open yields descriptor 4 or the stream at address 1, and `freopen` hands the
stream it was given back. -/
def demoReal : Real where
  real_open pathname _ _ := if pathname = some "/tmp/exists.txt" then 4 else -1
  real_open64 pathname _ _ := if pathname = some "/tmp/exists.txt" then 4 else -1
  real_openat dirfd pathname _ _ := if dirfd = 3 ∧ pathname = some "exists.txt" then 4 else -1
  real_openat64 dirfd pathname _ _ := if dirfd = 3 ∧ pathname = some "exists.txt" then 4 else -1
  real_fopen path _ := if path = some "/tmp/exists.txt" then some ⟨1⟩ else none
  real_fopen64 path _ := if path = some "/tmp/exists.txt" then some ⟨1⟩ else none
  real_fdopen fd _ := if fd = 3 then some ⟨1⟩ else none
  real_freopen path _ stream :=
    if path = some "/tmp/exists.txt" ∨ path = none then stream else none

/-- Primitives that answer every call with the same descriptor or handle. -/
def constReal (n : Int) (p : FilePtr) : Real where
  real_open _ _ _ := n
  real_open64 _ _ _ := n
  real_openat _ _ _ _ := n
  real_openat64 _ _ _ _ := n
  real_fopen _ _ := p
  real_fopen64 _ _ := p
  real_fdopen _ _ := p
  real_freopen _ _ _ := p

/-! ## Evaluating the wrappers -/

theorem wrap_open_eq (libc : Libc) (R : Real) (pathname : CStr) (flags : Int) (mode : Nat) :
    __wrap_open libc R pathname flags mode =
      if R.real_open pathname flags mode = -1 then
        ⟨[.real (.open_ pathname flags mode), .printf ("[WRAP] open: " ++ pathname.getD libc.nullText ++ "\n"), .fflush, .trap], .trapped⟩
      else
        ⟨[.real (.open_ pathname flags mode), .printf ("[WRAP] open: " ++ pathname.getD libc.nullText ++ "\n"), .fflush],
          .returned (R.real_open pathname flags mode)⟩ := by
  simp [__wrap_open, __real_open, printf, fflush_stdout, __builtin_trap, bind, Exec.bind, pure]
  split_ifs <;> simp_all [vformat, String.ext_iff]

theorem wrap_open64_eq (libc : Libc) (R : Real) (pathname : CStr) (flags : Int) (mode : Nat) :
    __wrap_open64 libc R pathname flags mode =
      if R.real_open64 pathname flags mode = -1 then
        ⟨[.real (.open64 pathname flags mode), .printf ("[WRAP] open64: " ++ pathname.getD libc.nullText ++ "\n"), .fflush, .trap], .trapped⟩
      else
        ⟨[.real (.open64 pathname flags mode), .printf ("[WRAP] open64: " ++ pathname.getD libc.nullText ++ "\n"), .fflush],
          .returned (R.real_open64 pathname flags mode)⟩ := by
  simp [__wrap_open64, __real_open64, printf, fflush_stdout, __builtin_trap, bind, Exec.bind, pure]
  split_ifs <;> simp_all [vformat, String.ext_iff]

theorem wrap_openat_eq (libc : Libc) (R : Real) (dirfd : Int) (pathname : CStr) (flags : Int) (mode : Nat) :
    __wrap_openat libc R dirfd pathname flags mode =
      if R.real_openat dirfd pathname flags mode = -1 then
        ⟨[.real (.openat dirfd pathname flags mode), .printf ("[WRAP] openat: " ++ pathname.getD libc.nullText ++ "\n"), .fflush, .trap], .trapped⟩
      else
        ⟨[.real (.openat dirfd pathname flags mode), .printf ("[WRAP] openat: " ++ pathname.getD libc.nullText ++ "\n"), .fflush],
          .returned (R.real_openat dirfd pathname flags mode)⟩ := by
  simp [__wrap_openat, __real_openat, printf, fflush_stdout, __builtin_trap, bind, Exec.bind, pure]
  split_ifs <;> simp_all [vformat, String.ext_iff]

theorem wrap_openat64_eq (libc : Libc) (R : Real) (dirfd : Int) (pathname : CStr) (flags : Int) (mode : Nat) :
    __wrap_openat64 libc R dirfd pathname flags mode =
      if R.real_openat64 dirfd pathname flags mode = -1 then
        ⟨[.real (.openat64 dirfd pathname flags mode), .printf ("[WRAP] openat64: " ++ pathname.getD libc.nullText ++ "\n"), .fflush, .trap], .trapped⟩
      else
        ⟨[.real (.openat64 dirfd pathname flags mode), .printf ("[WRAP] openat64: " ++ pathname.getD libc.nullText ++ "\n"), .fflush],
          .returned (R.real_openat64 dirfd pathname flags mode)⟩ := by
  simp [__wrap_openat64, __real_openat64, printf, fflush_stdout, __builtin_trap, bind, Exec.bind, pure]
  split_ifs <;> simp_all [vformat, String.ext_iff]

theorem wrap_fopen_eq (libc : Libc) (R : Real) (path mode : CStr) :
    __wrap_fopen libc R path mode =
      if R.real_fopen path mode = none then
        ⟨[.real (.fopen path mode), .printf ("[WRAP] fopen: " ++ path.getD libc.nullText ++ "\n"), .fflush, .trap], .trapped⟩
      else
        ⟨[.real (.fopen path mode), .printf ("[WRAP] fopen: " ++ path.getD libc.nullText ++ "\n"), .fflush],
          .returned (R.real_fopen path mode)⟩ := by
  simp [__wrap_fopen, __real_fopen, printf, fflush_stdout, __builtin_trap, bind, Exec.bind, pure]
  split_ifs <;> simp_all [vformat, String.ext_iff]

theorem wrap_fopen64_eq (libc : Libc) (R : Real) (path mode : CStr) :
    __wrap_fopen64 libc R path mode =
      if R.real_fopen64 path mode = none then
        ⟨[.real (.fopen64 path mode), .printf ("[WRAP] fopen64: " ++ path.getD libc.nullText ++ "\n"), .fflush, .trap], .trapped⟩
      else
        ⟨[.real (.fopen64 path mode), .printf ("[WRAP] fopen64: " ++ path.getD libc.nullText ++ "\n"), .fflush],
          .returned (R.real_fopen64 path mode)⟩ := by
  simp [__wrap_fopen64, __real_fopen64, printf, fflush_stdout, __builtin_trap, bind, Exec.bind, pure]
  split_ifs <;> simp_all [vformat, String.ext_iff]

theorem wrap_fdopen_eq (libc : Libc) (R : Real) (fd : Int) (mode : CStr) :
    __wrap_fdopen libc R fd mode =
      if R.real_fdopen fd mode = none then
        ⟨[.real (.fdopen fd mode), .printf ("[WRAP] fdopen: fd=" ++ toString fd ++ "\n"), .fflush, .trap], .trapped⟩
      else
        ⟨[.real (.fdopen fd mode), .printf ("[WRAP] fdopen: fd=" ++ toString fd ++ "\n"), .fflush],
          .returned (R.real_fdopen fd mode)⟩ := by
  simp [__wrap_fdopen, __real_fdopen, printf, fflush_stdout, __builtin_trap, bind, Exec.bind, pure]
  split_ifs <;> simp_all [vformat, String.ext_iff]

theorem wrap_freopen_eq (libc : Libc) (R : Real) (path mode : CStr) (stream : FilePtr) :
    __wrap_freopen libc R path mode stream =
      if R.real_freopen path mode stream = none then
        ⟨[.real (.freopen path mode stream), .printf ("[WRAP] freopen: " ++ path.getD "(null)" ++ "\n"), .fflush, .trap], .trapped⟩
      else
        ⟨[.real (.freopen path mode stream), .printf ("[WRAP] freopen: " ++ path.getD "(null)" ++ "\n"), .fflush],
          .returned (R.real_freopen path mode stream)⟩ := by
  cases path <;>
  simp [__wrap_freopen, __real_freopen, printf, fflush_stdout, __builtin_trap, bind, Exec.bind, pure] <;>
  split_ifs <;> simp_all [vformat, String.ext_iff]

theorem invoke_eq (libc : Libc) (R : Real) (c : Call) :
    invoke libc R c =
      if (R.result c).isFailure then
        ⟨[.real c, .printf (logText libc c), .fflush, .trap], .trapped⟩
      else
        ⟨[.real c, .printf (logText libc c), .fflush], .returned (R.result c)⟩ := by
  cases c <;>
  simp only [invoke, wrap_open_eq, wrap_open64_eq, wrap_openat_eq, wrap_openat64_eq,
    wrap_fopen_eq, wrap_fopen64_eq, wrap_fdopen_eq, wrap_freopen_eq, Real.result,
    Value.isFailure, logText] <;>
  split_ifs <;> simp_all [Functor.map, Exec.bind]

/-! ## The contract of the shim -/

/-- C1. For each of the eight wrappers and every argument tuple, when the
result of the corresponding real operation is a success (a non-negative
descriptor, 0 included, or a non-null stream handle), the wrapper returns
exactly that result to the caller and the trap is never reached. -/
theorem success_result_is_returned (libc : Libc) (R : Real) (c : Call)
    (h : (R.result c).isSuccess = true) :
    (invoke libc R c).outcome = .returned (R.result c) ∧
      Event.trap ∉ (invoke libc R c).trace := by
  have hf : (R.result c).isFailure = false := by
    cases hr : R.result c with
    | fd n =>
      rw [hr] at h
      simp only [Value.isSuccess, decide_eq_true_eq] at h
      simp only [Value.isFailure, beq_eq_false_iff_ne, ne_eq]
      omega
    | fp q =>
      rw [hr] at h
      cases q <;> simp_all [Value.isSuccess, Value.isFailure]
  rw [invoke_eq, hf]
  simp

/-- Witness for C1: opening the existing file `/tmp/exists.txt` by path hands
descriptor 4, the result of the real `open`, back to the caller. -/
theorem success_result_is_returned_witness :
    (demoReal.result (.open_ (some "/tmp/exists.txt") 0 0)).isSuccess = true ∧
      (invoke glibc demoReal (.open_ (some "/tmp/exists.txt") 0 0)).outcome =
        .returned (.fd 4) ∧
      Event.trap ∉ (invoke glibc demoReal (.open_ (some "/tmp/exists.txt") 0 0)).trace :=
  ⟨by decide,
    success_result_is_returned glibc demoReal (.open_ (some "/tmp/exists.txt") 0 0) (by decide)⟩

/-- C2. For each of the eight wrappers, when the real operation returns its
failure indicator (-1, or the null handle), the call ends in the trap and in no
returned value; the events before the trap contain exactly one log line, and
that line has reached the output by then. -/
theorem failure_traps_after_one_line (libc : Libc) (R : Real) (c : Call)
    (h : (R.result c).isFailure = true) :
    (invoke libc R c).outcome = .trapped ∧
      (∀ v, (invoke libc R c).outcome ≠ .returned v) ∧
      ∃ line before, (invoke libc R c).trace = before ++ [Event.trap] ∧
        Event.trap ∉ before ∧ writes before = [line] ∧ visible before = line := by
  rw [invoke_eq, h]
  refine ⟨rfl, ?_, logText libc c, [.real c, .printf (logText libc c), .fflush], rfl, ?_, rfl, ?_⟩
  · intro v; simp
  · simp
  · simp [visible, Stdout.step]

/-- Witness for C2: the scenario of the specification, opening `/nonexistent/x`
by path. -/
theorem failure_traps_after_one_line_witness :
    (demoReal.result (.open_ (some "/nonexistent/x") 0 0)).isFailure = true ∧
      (invoke glibc demoReal (.open_ (some "/nonexistent/x") 0 0)).outcome = .trapped ∧
      (∀ v, (invoke glibc demoReal (.open_ (some "/nonexistent/x") 0 0)).outcome ≠
        .returned v) ∧
      ∃ line before,
        (invoke glibc demoReal (.open_ (some "/nonexistent/x") 0 0)).trace =
          before ++ [Event.trap] ∧
        Event.trap ∉ before ∧ writes before = [line] ∧ visible before = line :=
  ⟨by decide,
    failure_traps_after_one_line glibc demoReal (.open_ (some "/nonexistent/x") 0 0) (by decide)⟩

/-- C3, as stated, fails: when the real `open` answers -2, `__wrap_open` hands
-2 back to its caller. -/
theorem negative_descriptor_is_returned :
    (constReal (-2) none).real_open (some "/tmp/exists.txt") 0 0 = -2 ∧
      (__wrap_open glibc (constReal (-2) none) (some "/tmp/exists.txt") 0 0).outcome =
        .returned (-2) ∧
      ¬ (∀ (libc : Libc) (R : Real) (pathname : CStr) (flags : Int) (mode : Nat) (v : Int),
          (__wrap_open libc R pathname flags mode).outcome = .returned v → 0 ≤ v) := by
  refine ⟨rfl, by decide, ?_⟩
  intro hall
  have := hall glibc (constReal (-2) none) (some "/tmp/exists.txt") 0 0 (-2) (by decide)
  omega

/-- C3, amended. Each descriptor-returning wrapper traps exactly when the real
operation returns -1 and hands every other result back unchanged; so no value
it returns is -1. -/
theorem descriptor_wrappers_trap_exactly_on_minus_one (libc : Libc) (R : Real) :
    (∀ pathname flags mode,
      (__wrap_open libc R pathname flags mode).outcome =
        if R.real_open pathname flags mode = -1 then .trapped
        else .returned (R.real_open pathname flags mode)) ∧
    (∀ pathname flags mode,
      (__wrap_open64 libc R pathname flags mode).outcome =
        if R.real_open64 pathname flags mode = -1 then .trapped
        else .returned (R.real_open64 pathname flags mode)) ∧
    (∀ dirfd pathname flags mode,
      (__wrap_openat libc R dirfd pathname flags mode).outcome =
        if R.real_openat dirfd pathname flags mode = -1 then .trapped
        else .returned (R.real_openat dirfd pathname flags mode)) ∧
    (∀ dirfd pathname flags mode,
      (__wrap_openat64 libc R dirfd pathname flags mode).outcome =
        if R.real_openat64 dirfd pathname flags mode = -1 then .trapped
        else .returned (R.real_openat64 dirfd pathname flags mode)) ∧
    (∀ pathname flags mode, (__wrap_open libc R pathname flags mode).outcome ≠ .returned (-1)) ∧
    (∀ pathname flags mode, (__wrap_open64 libc R pathname flags mode).outcome ≠ .returned (-1)) ∧
    (∀ dirfd pathname flags mode,
      (__wrap_openat libc R dirfd pathname flags mode).outcome ≠ .returned (-1)) ∧
    (∀ dirfd pathname flags mode,
      (__wrap_openat64 libc R dirfd pathname flags mode).outcome ≠ .returned (-1)) := by
  refine ⟨?_, ?_, ?_, ?_, ?_, ?_, ?_, ?_⟩ <;> intros
  · rw [wrap_open_eq]; split_ifs <;> rfl
  · rw [wrap_open64_eq]; split_ifs <;> rfl
  · rw [wrap_openat_eq]; split_ifs <;> rfl
  · rw [wrap_openat64_eq]; split_ifs <;> rfl
  · rw [wrap_open_eq]; split_ifs <;> simp_all
  · rw [wrap_open64_eq]; split_ifs <;> simp_all
  · rw [wrap_openat_eq]; split_ifs <;> simp_all
  · rw [wrap_openat64_eq]; split_ifs <;> simp_all

/-- C4. Each path-based wrapper called with a non-null path `p` writes, whatever
the real operation returns, the single line `[WRAP] `, its own entry-point name,
`: `, `p` unchanged and a newline; `open` on `/tmp/exists.txt` writes
`[WRAP] open: /tmp/exists.txt`. -/
theorem path_wrappers_log_name_and_path (libc : Libc) (R : Real) (p : String) :
    (∀ flags mode,
      writes (__wrap_open libc R (some p) flags mode).trace = ["[WRAP] open: " ++ p ++ "\n"]) ∧
    (∀ flags mode,
      writes (__wrap_open64 libc R (some p) flags mode).trace =
        ["[WRAP] open64: " ++ p ++ "\n"]) ∧
    (∀ mode,
      writes (__wrap_fopen libc R (some p) mode).trace = ["[WRAP] fopen: " ++ p ++ "\n"]) ∧
    (∀ mode,
      writes (__wrap_fopen64 libc R (some p) mode).trace = ["[WRAP] fopen64: " ++ p ++ "\n"]) ∧
    (∀ mode stream,
      writes (__wrap_freopen libc R (some p) mode stream).trace =
        ["[WRAP] freopen: " ++ p ++ "\n"]) ∧
    (∀ flags mode,
      writes (__wrap_open libc R (some "/tmp/exists.txt") flags mode).trace =
        ["[WRAP] open: /tmp/exists.txt\n"]) := by
  refine ⟨?_, ?_, ?_, ?_, ?_, ?_⟩ <;> intros
  · rw [wrap_open_eq]; split_ifs <;> simp [writes]
  · rw [wrap_open64_eq]; split_ifs <;> simp [writes]
  · rw [wrap_fopen_eq]; split_ifs <;> simp [writes]
  · rw [wrap_fopen64_eq]; split_ifs <;> simp [writes]
  · rw [wrap_freopen_eq]; split_ifs <;> simp [writes]
  · rw [wrap_open_eq]; split_ifs <;> simp [writes]

/-- C5, as stated, fails: `__wrap_openat` called with directory descriptor 3 and
the path `exists.txt` writes the path, not the number 3. -/
theorem openat_logs_path_not_descriptor :
    writes (__wrap_openat glibc demoReal 3 (some "exists.txt") 0 0).trace =
        ["[WRAP] openat: exists.txt\n"] ∧
      writes (__wrap_openat glibc demoReal 3 (some "exists.txt") 0 0).trace ≠
        ["[WRAP] openat: " ++ toString (3 : Int) ++ "\n"] := by
  decide

/-- C5, amended. `__wrap_openat` and `__wrap_openat64` write the path they were
given, the same line for every directory descriptor; `__wrap_fdopen`, which has
no path, writes the descriptor it was given: the target part of its line is
`fd=` followed by the decimal rendering of `fd`. -/
theorem descriptor_entry_points_log_target (libc : Libc) (R : Real) :
    (∀ dirfd p flags mode,
      writes (__wrap_openat libc R dirfd (some p) flags mode).trace =
        ["[WRAP] openat: " ++ p ++ "\n"]) ∧
    (∀ dirfd p flags mode,
      writes (__wrap_openat64 libc R dirfd (some p) flags mode).trace =
        ["[WRAP] openat64: " ++ p ++ "\n"]) ∧
    (∀ fd mode,
      writes (__wrap_fdopen libc R fd mode).trace =
        ["[WRAP] fdopen: " ++ ("fd=" ++ toString fd) ++ "\n"]) := by
  refine ⟨?_, ?_, ?_⟩ <;> intros
  · rw [wrap_openat_eq]; split_ifs <;> simp [writes]
  · rw [wrap_openat64_eq]; split_ifs <;> simp [writes]
  · rw [wrap_fdopen_eq]; split_ifs <;> simp [writes, String.ext_iff]

/-- C6. `__wrap_freopen` called with a null path, any mode and any stream
writes exactly the line `[WRAP] freopen: (null)`, whatever the C library would
do with a null `%s` argument; it then hands the handle of the real operation
back unchanged if that is non-null and traps if it is null. -/
theorem freopen_null_path (libc : Libc) (R : Real) (mode : CStr) (stream : FilePtr) :
    writes (__wrap_freopen libc R none mode stream).trace = ["[WRAP] freopen: (null)\n"] ∧
      (__wrap_freopen libc R none mode stream).outcome =
        (match R.real_freopen none mode stream with
          | some handle => .returned (some handle)
          | none => .trapped) := by
  rw [wrap_freopen_eq]
  cases hr : R.real_freopen none mode stream <;> simp [writes]

/-- C7. Each wrapper invokes the real operation of its own name exactly once,
with the arguments it received, in the same order and unchanged. -/
theorem wrappers_delegate_with_same_arguments (libc : Libc) (R : Real) :
    (∀ pathname flags mode,
      realCalls (__wrap_open libc R pathname flags mode).trace =
        [.open_ pathname flags mode]) ∧
    (∀ pathname flags mode,
      realCalls (__wrap_open64 libc R pathname flags mode).trace =
        [.open64 pathname flags mode]) ∧
    (∀ dirfd pathname flags mode,
      realCalls (__wrap_openat libc R dirfd pathname flags mode).trace =
        [.openat dirfd pathname flags mode]) ∧
    (∀ dirfd pathname flags mode,
      realCalls (__wrap_openat64 libc R dirfd pathname flags mode).trace =
        [.openat64 dirfd pathname flags mode]) ∧
    (∀ path mode, realCalls (__wrap_fopen libc R path mode).trace = [.fopen path mode]) ∧
    (∀ path mode, realCalls (__wrap_fopen64 libc R path mode).trace = [.fopen64 path mode]) ∧
    (∀ fd mode, realCalls (__wrap_fdopen libc R fd mode).trace = [.fdopen fd mode]) ∧
    (∀ path mode stream,
      realCalls (__wrap_freopen libc R path mode stream).trace =
        [.freopen path mode stream]) := by
  refine ⟨?_, ?_, ?_, ?_, ?_, ?_, ?_, ?_⟩ <;> intros
  · rw [wrap_open_eq]; split_ifs <;> rfl
  · rw [wrap_open64_eq]; split_ifs <;> rfl
  · rw [wrap_openat_eq]; split_ifs <;> rfl
  · rw [wrap_openat64_eq]; split_ifs <;> rfl
  · rw [wrap_fopen_eq]; split_ifs <;> rfl
  · rw [wrap_fopen64_eq]; split_ifs <;> rfl
  · rw [wrap_fdopen_eq]; split_ifs <;> rfl
  · rw [wrap_freopen_eq]; split_ifs <;> rfl

/-- C8. For every wrapper and every call the effects are, in this order: one
invocation of the real operation, one write of a log line, one flush, and only
then the return to the caller or the trap; on both paths the whole line has
reached the output when the call ends. -/
theorem effects_in_order (libc : Libc) (R : Real) (c : Call) :
    ∃ line,
      (((invoke libc R c).trace = [.real c, .printf line, .fflush] ∧
          (invoke libc R c).outcome = .returned (R.result c)) ∨
        ((invoke libc R c).trace = [.real c, .printf line, .fflush, .trap] ∧
          (invoke libc R c).outcome = .trapped)) ∧
      visible (invoke libc R c).trace = line := by
  refine ⟨logText libc c, ?_⟩
  rw [invoke_eq]
  split_ifs
  · exact ⟨Or.inr ⟨rfl, rfl⟩, by simp [visible, Stdout.step]⟩
  · exact ⟨Or.inl ⟨rfl, rfl⟩, by simp [visible, Stdout.step]⟩

/-- C9, as stated, fails: for descriptor 5 the line of `__wrap_fdopen` is
`[WRAP] fdopen: fd=5`, not `[WRAP] fdopen: 5`. -/
theorem fdopen_line_has_fd_prefix :
    writes (__wrap_fdopen glibc demoReal 5 (some "r")).trace = ["[WRAP] fdopen: fd=5\n"] ∧
      writes (__wrap_fdopen glibc demoReal 5 (some "r")).trace ≠
        ["[WRAP] fdopen: " ++ toString (5 : Int) ++ "\n"] := by
  decide

/-- C9, amended. For every descriptor value `n` passed to `__wrap_fdopen` the
line written is exactly `[WRAP] fdopen: fd=` followed by the signed decimal
rendering of `n` and a newline. -/
theorem fdopen_log_line (libc : Libc) (R : Real) (n : Int) (mode : CStr) :
    writes (__wrap_fdopen libc R n mode).trace = ["[WRAP] fdopen: fd=" ++ toString n ++ "\n"] ∧
      writes (__wrap_fdopen libc R (-7) mode).trace = ["[WRAP] fdopen: fd=-7\n"] := by
  constructor
  · rw [wrap_fdopen_eq]; split_ifs <;> simp [writes]
  · rw [wrap_fdopen_eq]; split_ifs <;> simp [writes] <;> decide

/-- C10. The log does not depend on the result of the real operation, and the
outcome does not depend on the arguments: two runs on the same call with
different real operations write the same line, and two runs in which the real
operations give the same result end the same way, with the same returned
value. -/
theorem log_and_outcome_independent (libc : Libc) (R R' : Real) (c : Call) :
    writes (invoke libc R c).trace = writes (invoke libc R' c).trace ∧
      ∀ (libc' : Libc) (c' : Call), R.result c = R'.result c' →
        (invoke libc R c).outcome = (invoke libc' R' c').outcome := by
  constructor
  · rw [invoke_eq, invoke_eq]
    split_ifs <;> rfl
  · intro libc' c' h
    rw [invoke_eq, invoke_eq, h]
    split_ifs <;> rfl

/-- Witness for C10: two `fdopen` runs on different descriptors and mode
strings whose real operations both fail trap alike. -/
theorem log_and_outcome_independent_witness :
    demoReal.result (.fdopen 7 (some "r")) = (constReal 0 none).result (.fdopen 3 (some "w")) ∧
      (invoke glibc demoReal (.fdopen 7 (some "r"))).outcome =
        (invoke glibc (constReal 0 none) (.fdopen 3 (some "w"))).outcome :=
  ⟨by decide,
    (log_and_outcome_independent glibc demoReal (constReal 0 none) (.fdopen 7 (some "r"))).2
      glibc (.fdopen 3 (some "w")) (by decide)⟩

end OpenWrapper
